import Mathlib

/-!
Shallow embedding of the AgenticOps document-processing pipeline
(`communication.py`, `residual_agent.py`, `master_agent.py`,
`sub_master_agent.py`, `worker_agent.py`) and proofs about it.

Python dictionaries are modelled as insertion-ordered association lists
(`alookup` / `aupdate` / `aerase`); optional dictionary fields are `Option`
values (`none` = key absent), `dict.get(k, d)` is `Option.getD`; Python
floats (timestamps, scores) are modelled as exact rationals; Python ints
as `Int`.  Side effects on the global bus/storage singletons are returned
as explicit event lists.
-/

/-- Lookup in an insertion-ordered association list (Python `d[k]` /
`k in d`): returns the value of the first pair with the given key. -/
def alookup {κ β : Type} [DecidableEq κ] (k : κ) : List (κ × β) → Option β
  | [] => none
  | (k', v) :: rest => if k = k' then some v else alookup k rest

/-- Python `d[k] = v` on an insertion-ordered dict: replace the value of
an existing key in place, else append the new pair at the end. -/
def aupdate {κ β : Type} [DecidableEq κ] (k : κ) (v : β) : List (κ × β) → List (κ × β)
  | [] => [(k, v)]
  | (k', v') :: rest => if k = k' then (k', v) :: rest else (k', v') :: aupdate k v rest

/-- Python `del d[k]`: drop every pair with the given key (a dict has at
most one, so this coincides with deleting the entry). -/
def aerase {κ β : Type} [DecidableEq κ] (k : κ) (l : List (κ × β)) : List (κ × β) :=
  l.filter (fun p => p.1 ≠ k)

theorem alookup_aupdate_self {κ β : Type} [DecidableEq κ] (k : κ) (v : β)
    (l : List (κ × β)) : alookup k (aupdate k v l) = some v := by
  induction l with
  | nil => simp [aupdate, alookup]
  | cons p rest ih =>
    by_cases h : k = p.1
    · simp [aupdate, alookup, h]
    · simp [aupdate, alookup, h, ih]

theorem alookup_aerase {κ β : Type} [DecidableEq κ] (k : κ)
    (l : List (κ × β)) : alookup k (aerase k l) = none := by
  induction l with
  | nil => simp [aerase, alookup]
  | cons p rest ih =>
    simp only [aerase, List.filter_cons] at ih ⊢
    by_cases h : p.1 = k
    · simpa [h] using ih
    · simpa [h, alookup, Ne.symm h] using ih

/-! ## Message bus (`communication.py`, class `MessageBus`)

Channels and subscriber lists are `defaultdict(list)`, modelled as total
functions with default `[]`.  Handlers are opaque ids of type `η`; the
synchronous callback invocations performed by `publish` (lines 30-34,
each wrapped in a `try/except` that cannot prevent later deliveries) are
returned as the ordered list of (handler, delivered message) events. -/

/-- A stored bus message: the published payload together with the
`timestamp` and `channel` fields merged in by `publish` (lines 19-23). -/
structure BusMessage (α : Type) where
  payload : α
  timestamp : ℚ
  channel : String
  deriving DecidableEq, Repr

/-- State of `MessageBus`: per-channel histories, per-channel subscriber
lists, and the global `message_history`. -/
structure BusState (α η : Type) where
  channels : String → List (BusMessage α)
  subscribers : String → List η
  message_history : List (BusMessage α)

/-- `MessageBus.publish` (lines 17-36): stamp the message, append it to
the channel's history and the global history, then call every currently
registered subscriber of the channel in registration order.  Returns the
new state and the ordered invocation events. -/
def publish {α η : Type} (st : BusState α η) (channel : String) (message : α)
    (now : ℚ) : BusState α η × List (η × BusMessage α) :=
  let m : BusMessage α := ⟨message, now, channel⟩
  let st' : BusState α η :=
    { st with
      channels := fun c => if c = channel then st.channels c ++ [m] else st.channels c
      message_history := st.message_history ++ [m] }
  (st', (st.subscribers channel).map (fun h => (h, m)))

/-- `MessageBus.subscribe` (lines 38-41): append the handler to the
channel's subscriber list. -/
def subscribe {α η : Type} (st : BusState α η) (channel : String) (handler : η) :
    BusState α η :=
  { st with
    subscribers := fun c =>
      if c = channel then st.subscribers c ++ [handler] else st.subscribers c }

/-- `MessageBus.get_messages` (lines 43-45): the channel's messages whose
timestamp is strictly greater than `since`; a pure read. -/
def get_messages {α η : Type} (st : BusState α η) (channel : String) (since : ℚ) :
    List (BusMessage α) :=
  (st.channels channel).filter (fun m => since < m.timestamp)

/-! ## Validator (`residual_agent.py`, class `ResidualAgent`)

A `TierResult` is the sub-master result dict consumed by
`validate_single_result` / `get_failure_reason` / `aggregate_results`;
every field is optional because the code tests key presence. -/

/-- A worker result dict (`UnitResult`) as consumed by
`validate_worker_result` and `compile_results`. -/
structure WorkerResult where
  document_id : Option String := none
  status : Option String := none
  chunks_processed : Option Int := none
  worker_id : Option String := none
  total_words : Option Int := none
  subtask_id : Option String := none
  deriving DecidableEq, Repr

/-- A sub-master result dict (`TierResult`) as consumed by the validator
and the master's reducer. -/
structure TierResult where
  task_id : Option String := none
  sub_master_id : Option String := none
  total_documents : Option Int := none
  successful_documents : Option Int := none
  total_chunks_processed : Option Int := none
  total_words_processed : Option Int := none
  processing_time : Option ℚ := none
  worker_results : Option (List WorkerResult) := none
  deriving DecidableEq, Repr

/-- The empty dict `{}` (default of `message.get("result", {})`). -/
def TierResult.empty : TierResult := {}

/-- Python falsiness of `result.get("worker_results")`: `None` or `[]`. -/
def wrFalsy : Option (List WorkerResult) → Bool
  | none => true
  | some [] => true
  | some (_ :: _) => false

/-- `ResidualAgent.validate_worker_result` (lines 80-96). -/
def validate_worker_result (w : WorkerResult) : Bool :=
  if w.document_id.isNone then false
  else if w.status.isNone then false
  else if w.chunks_processed.isNone then false
  else if w.worker_id.isNone then false
  else if w.status ≠ some "completed" then false
  else if w.chunks_processed.getD 0 ≤ 0 then false
  else true

/-- `ResidualAgent.validate_single_result` (lines 51-78). -/
def validate_single_result (r : TierResult) : Bool :=
  if r.task_id.isNone then false
  else if r.sub_master_id.isNone then false
  else if r.total_documents.isNone then false
  else if r.successful_documents.isNone then false
  else if r.successful_documents.getD 0 = 0 then false
  else if r.processing_time.getD 0 < 1/10 ∨ 300 < r.processing_time.getD 0 then false
  else if wrFalsy r.worker_results then false
  else ((r.worker_results.getD []).all validate_worker_result)

/-- `ResidualAgent.get_failure_reason` (lines 98-106). -/
def get_failure_reason (r : TierResult) : String :=
  if r.task_id.isNone then "Missing task ID"
  else if r.successful_documents.getD 0 = 0 then "No successful documents processed"
  else if wrFalsy r.worker_results then "No worker results"
  else "Unknown validation failure"

/-- An anomaly record `{result_id, reason}` (lines 34-37). -/
structure Anomaly where
  result_id : String
  reason : String
  deriving DecidableEq, Repr

/-- The report built by `ResidualAgent.validate_results` (lines 19-27). -/
structure ValidationReport where
  validator_id : String
  total_results : Nat
  successful : Nat
  failed : Nat
  anomalies : List Anomaly
  quality_score : ℚ
  validation_time : ℚ
  deriving DecidableEq, Repr

/-- One iteration of the validation loop (lines 29-37) acting on the
mutable (successful, failed, anomalies) part of the report. -/
def validate_step (acc : Nat × Nat × List Anomaly) (r : TierResult) :
    Nat × Nat × List Anomaly :=
  if validate_single_result r then (acc.1 + 1, acc.2.1, acc.2.2)
  else (acc.1, acc.2.1 + 1,
        acc.2.2 ++ [⟨r.task_id.getD "unknown", get_failure_reason r⟩])

/-- `ResidualAgent.validate_results` (lines 15-49): loop over the results,
then set `quality_score = successful / total_results` when
`total_results > 0` (it stays `0.0` otherwise).  The report is returned;
the append to `validation_history` (line 45) does not affect it. -/
def validate_results (vid : String) (now : ℚ) (task_results : List TierResult) :
    ValidationReport :=
  let acc := task_results.foldl validate_step (0, 0, [])
  { validator_id := vid
    total_results := task_results.length
    successful := acc.1
    failed := acc.2.1
    anomalies := acc.2.2
    quality_score :=
      if 0 < task_results.length then (acc.1 : ℚ) / (task_results.length : ℚ) else 0
    validation_time := now }

/-! ## Master agent (`master_agent.py`, class `MasterAgent`) -/

/-- The slicing loop of `MasterAgent.split_documents` (lines 95-97):
`documents[i:i+chunk_size]` for `i in range(0, len(documents), chunk_size)`.
The step is positive in the source (`chunk_size = max(1, ...)`), carried
here as the hypothesis `hs`. -/
def sliceChunks {α : Type} (size : Nat) (hs : 0 < size) (xs : List α) :
    List (List α) :=
  if h : xs.isEmpty then []
  else xs.take size :: sliceChunks size hs (xs.drop size)
termination_by xs.length
decreasing_by
  simp only [List.length_drop]
  have hx : 0 < xs.length := by
    cases xs with
    | nil => simp at h
    | cons a t => simp
  omega

/-- One pass of the merge loop in `MasterAgent.split_documents`
(lines 100-103): `last = chunks.pop(); chunks[-1].extend(last)`. -/
def mergeLastTwo {α : Type} (cs : List (List α)) : List (List α) :=
  match cs.reverse with
  | last :: prev :: rest => ((prev ++ last) :: rest).reverse
  | _ => cs

theorem mergeLastTwo_length {α : Type} (cs : List (List α)) (h : 2 ≤ cs.length) :
    (mergeLastTwo cs).length = cs.length - 1 := by
  unfold mergeLastTwo
  match hrev : cs.reverse with
  | [] =>
    have : cs = [] := by simpa using congrArg List.reverse hrev
    simp [this] at h
  | [a] =>
    have : cs = [a] := by simpa using congrArg List.reverse hrev
    simp [this] at h
  | last :: prev :: rest =>
    have hlen : cs.length = rest.length + 2 := by
      have := congrArg List.length hrev
      simpa [Nat.add_comm, Nat.add_left_comm] using this
    simp [hlen]

theorem mergeLastTwo_join {α : Type} (cs : List (List α)) :
    (mergeLastTwo cs).flatten = cs.flatten := by
  unfold mergeLastTwo
  match hrev : cs.reverse with
  | [] => rfl
  | [a] => rfl
  | last :: prev :: rest =>
    have hcs : cs = rest.reverse ++ [prev] ++ [last] := by
      have := congrArg List.reverse hrev
      simpa [List.reverse_cons, List.append_assoc] using this
    rw [hcs]
    simp [List.reverse_cons, List.flatten_append, List.append_assoc]

/-- The merge loop of `MasterAgent.split_documents` (lines 100-103):
`while len(chunks) > M: merge the last two chunks`.  The extra guard
`2 ≤ chunks.length` only matters for `M = 0` with a single chunk, where
the source raises `IndexError`; every claim assumes `1 ≤ M`, where the
guard is implied by `M < chunks.length`. -/
def mergeExtra {α : Type} (M : Nat) (chunks : List (List α)) : List (List α) :=
  if h : M < chunks.length ∧ 2 ≤ chunks.length then
    mergeExtra M (mergeLastTwo chunks)
  else chunks
termination_by chunks.length
decreasing_by
  rw [mergeLastTwo_length chunks h.2]
  omega

theorem mergeExtra_join {α : Type} (M : Nat) (chunks : List (List α)) :
    (mergeExtra M chunks).flatten = chunks.flatten := by
  induction chunks using mergeExtra.induct M with
  | case1 cs h ih => rw [mergeExtra, dif_pos h, ih, mergeLastTwo_join]
  | case2 cs h => rw [mergeExtra, dif_neg h]

theorem mergeExtra_length_le {α : Type} (M : Nat) (hM : 1 ≤ M)
    (chunks : List (List α)) : (mergeExtra M chunks).length ≤ M := by
  induction chunks using mergeExtra.induct M with
  | case1 cs h ih => rw [mergeExtra, dif_pos h]; exact ih
  | case2 cs h =>
    rw [mergeExtra, dif_neg h]
    rcases Nat.lt_or_ge M cs.length with hlt | hge
    · exact absurd ⟨hlt, by omega⟩ h
    · exact hge

/-- `MasterAgent.split_documents` (lines 87-105): contiguous slices of
size `max(1, N // M)` (`M` = number of sub-masters), then repeatedly merge
the last two slices until at most `M` groups remain. -/
def split_documents {α : Type} (M : Nat) (documents : List α) :
    List (List α) :=
  if documents.isEmpty then []
  else
    mergeExtra M
      (sliceChunks (max 1 (documents.length / M)) (by positivity) documents)

theorem sliceChunks_join {α : Type} (size : Nat) (hs : 0 < size)
    (xs : List α) : (sliceChunks size hs xs).flatten = xs := by
  induction xs using sliceChunks.induct size hs with
  | case1 xs h => rw [sliceChunks, dif_pos h]; simpa using (List.isEmpty_iff.mp h).symm
  | case2 xs h ih =>
    rw [sliceChunks, dif_neg h]
    simp [List.flatten, ih]

theorem split_documents_join {α : Type} (M : Nat) (documents : List α) :
    (split_documents M documents).flatten = documents := by
  unfold split_documents
  by_cases h : documents.isEmpty
  · simp [h, List.isEmpty_iff.mp h]
  · rw [if_neg h, mergeExtra_join, sliceChunks_join]

theorem split_documents_length_le {α : Type} (M : Nat) (hM : 1 ≤ M)
    (documents : List α) : (split_documents M documents).length ≤ M := by
  unfold split_documents
  by_cases h : documents.isEmpty
  · simp [h]
  · rw [if_neg h]; exact mergeExtra_length_le M hM _

/-- `MasterAgent.aggregate_results` output (lines 170-178), minus the
fields added afterwards by `finalize_task`. -/
structure AggResult where
  total_documents_processed : Int
  successful_documents : Int
  failed_documents : Int
  total_chunks_processed : Int
  total_words_processed : Int
  success_rate : ℚ
  sub_master_results : List TierResult
  deriving DecidableEq, Repr

/-- `MasterAgent.aggregate_results` (lines 163-178). -/
def aggregate_results (rs : List TierResult) : AggResult :=
  let total_docs := (rs.map (fun r => r.total_documents.getD 0)).sum
  let successful_docs := (rs.map (fun r => r.successful_documents.getD 0)).sum
  let total_chunks := (rs.map (fun r => r.total_chunks_processed.getD 0)).sum
  let total_words := (rs.map (fun r => r.total_words_processed.getD 0)).sum
  { total_documents_processed := total_docs
    successful_documents := successful_docs
    failed_documents := total_docs - successful_docs
    total_chunks_processed := total_chunks
    total_words_processed := total_words
    success_rate :=
      if 0 < total_docs then (successful_docs : ℚ) / (total_docs : ℚ) else 0
    sub_master_results := rs }

/-- The per-task tracking entry `active_tasks[task_id]` (lines 61-66). -/
structure TaskInfo where
  total_docs : Nat
  sub_master_results : List TierResult
  start_time : ℚ
  status : String
  deriving DecidableEq, Repr

/-- The final report stored in `completed_tasks[task_id]` (lines 139-146). -/
structure FinalResult where
  total_documents_processed : Int
  successful_documents : Int
  failed_documents : Int
  total_chunks_processed : Int
  total_words_processed : Int
  success_rate : ℚ
  sub_master_results : List TierResult
  task_id : String
  master_id : String
  total_processing_time : ℚ
  validation : ValidationReport
  deriving DecidableEq, Repr

/-- The coordinator state of `MasterAgent` relevant to task tracking:
`sub_masters` (as ids), `active_tasks` and `completed_tasks`.
The validator's id stands in for `residual_agent`. -/
structure MasterState where
  agent_id : String
  validator_id : String
  sub_masters : List String
  active_tasks : List (String × TaskInfo)
  completed_tasks : List (String × FinalResult)
  deriving DecidableEq, Repr

/-- `MasterAgent.finalize_task` (lines 128-161): if the task is still
active, aggregate its sub-master results, attach the validation report,
move the task from `active_tasks` to `completed_tasks`.  The storage
write and the status broadcast (lines 150, 156) are effects outside
`MasterState`. -/
def finalize_task (now : ℚ) (task_id : String) (st : MasterState) : MasterState :=
  match alookup task_id st.active_tasks with
  | none => st
  | some info =>
    let agg := aggregate_results info.sub_master_results
    let fr : FinalResult :=
      { total_documents_processed := agg.total_documents_processed
        successful_documents := agg.successful_documents
        failed_documents := agg.failed_documents
        total_chunks_processed := agg.total_chunks_processed
        total_words_processed := agg.total_words_processed
        success_rate := agg.success_rate
        sub_master_results := agg.sub_master_results
        task_id := task_id
        master_id := st.agent_id
        total_processing_time := now - info.start_time
        validation := validate_results st.validator_id now info.sub_master_results }
    { st with
      completed_tasks := aupdate task_id fr st.completed_tasks
      active_tasks := aerase task_id st.active_tasks }

/-- A message on the `submaster_results` channel, as read by
`handle_submaster_result` via `message.get(...)` (lines 109-111). -/
structure SubmasterMsg where
  sub_master_id : Option String := none
  task_id : Option String := none
  result : Option TierResult := none
  deriving DecidableEq, Repr

/-- `MasterAgent.handle_submaster_result` (lines 107-126): drop the
message unless its task id is an active task; otherwise append the
result, and finalize when the count of received results reaches
`len(self.sub_masters)`.  A message without a `task_id` can never match
an active task (task ids are generated strings), hence the `none` case. -/
def handle_submaster_result (now : ℚ) (msg : SubmasterMsg) (st : MasterState) :
    MasterState :=
  match msg.task_id with
  | none => st
  | some task_id =>
    match alookup task_id st.active_tasks with
    | none => st
    | some info =>
      let result := msg.result.getD TierResult.empty
      let info' :=
        { info with sub_master_results := info.sub_master_results ++ [result] }
      let st' := { st with active_tasks := aupdate task_id info' st.active_tasks }
      let expected_results := st.sub_masters.length
      let actual_results := info'.sub_master_results.length
      if expected_results ≤ actual_results then finalize_task now task_id st'
      else st'

/-- A task assignment payload published by lines 76-80. -/
structure TaskAssignment (δ : Type) where
  task_id : String
  document_chunk : List δ
  chunk_id : Nat
  deriving DecidableEq, Repr

/-- `MasterAgent.process_document_batch` (lines 44-85): create the task
id from the clock and the number of active tasks, register the tracking
entry, split the batch, and send one assignment per chunk whose index is
below the sub-master count.  Returns the new state, the task id, and the
list of (target sub-master, assignment) sends. -/
def process_document_batch {δ : Type} (now : ℚ) (nowSec : Nat)
    (documents : List δ) (st : MasterState) :
    MasterState × String × List (String × TaskAssignment δ) :=
  let task_id := "task_" ++ toString nowSec ++ "_" ++ toString st.active_tasks.length
  let info : TaskInfo :=
    { total_docs := documents.length
      sub_master_results := []
      start_time := now
      status := "processing" }
  let st' := { st with active_tasks := aupdate task_id info st.active_tasks }
  let document_chunks := split_documents st.sub_masters.length documents
  let sends :=
    (document_chunks.enum.filter (fun p => p.1 < st.sub_masters.length)).map
      (fun p => (st.sub_masters.getD p.1 "", TaskAssignment.mk task_id p.2 p.1))
  (st', task_id, sends)

/-! ## Sub-master agent (`sub_master_agent.py`, class `SubMasterAgent`)

`active_tasks` is keyed by `task_data.get("task_id")`, which may be
`None`, so keys are `Option String`. -/

/-- The tracking entry `active_tasks[task_id]` (lines 61-67). -/
structure SubTaskInfo (δ : Type) where
  documents : List δ
  total_docs : Nat
  completed_docs : Nat
  worker_results : List WorkerResult
  start_time : ℚ
  deriving DecidableEq, Repr

/-- The task-tracking state of `SubMasterAgent`. -/
structure SubMasterState (δ : Type) where
  agent_id : String
  workers : List String
  active_tasks : List (Option String × SubTaskInfo δ)
  task_results : List (Option String × TierResult)
  deriving DecidableEq, Repr

/-- The `task_data` dict read by `SubMasterAgent.process_task`
(lines 54-56), with the source's `.get` defaults. -/
structure SubTaskData (δ : Type) where
  task_id : Option String := none
  document_chunk : List δ := []
  chunk_id : Nat := 0
  deriving DecidableEq, Repr

/-- A worker assignment payload published by lines 75-79. -/
structure WorkerAssignment (δ : Type) where
  task_id : Option String
  document : δ
  subtask_id : String
  deriving DecidableEq, Repr

/-- The `subtask_id` f-string of line 72 (Python renders `None` as the
string `"None"`). -/
def mkSubtaskId (task_id : Option String) (chunk_id i : Nat) : String :=
  (match task_id with | some s => s | none => "None")
    ++ "_subtask_" ++ toString chunk_id ++ "_" ++ toString i

/-- The tracking-and-dispatch phase of `SubMasterAgent.process_task`
(lines 52-79): unconditionally (re)assign `active_tasks[task_id]` a fresh
tracking entry, then send one worker assignment per document in the
chunk, round-robin over the worker pool.  The subsequent
`wait_for_completion` / `compile_results` tail (lines 82-84) depends on
worker results arriving concurrently and is outside this claim's scope;
nothing before it can reject a task id that is already active. -/
def submaster_track_and_dispatch {δ : Type} (now : ℚ) (td : SubTaskData δ)
    (st : SubMasterState δ) :
    SubMasterState δ × List (String × WorkerAssignment δ) :=
  let info : SubTaskInfo δ :=
    { documents := td.document_chunk
      total_docs := td.document_chunk.length
      completed_docs := 0
      worker_results := []
      start_time := now }
  let st' := { st with active_tasks := aupdate td.task_id info st.active_tasks }
  let sends :=
    td.document_chunk.enum.map (fun p =>
      (st.workers.getD (p.1 % st.workers.length) "",
       WorkerAssignment.mk td.task_id p.2 (mkSubtaskId td.task_id td.chunk_id p.1)))
  (st', sends)

/-! ## Worker agent (`worker_agent.py`, class `WorkerAgent`)

Claim-relevant behavior is the exception path of `process_task`
(lines 102-110) and the reporting done by `handle_subtask`
(lines 30-40); the document-processing try-body (lines 49-100, chunking,
vectorizing and summarizing via collaborator stubs) is abstracted as its
outcome: either a successful result dict or a raised exception's text. -/

/-- A checkpoint written by `create_checkpoint` on failure
(lines 104-109). -/
structure WorkerCheckpoint where
  subtask_id : String
  document_id : Option String
  error : String
  retry_count : Int
  deriving DecidableEq, Repr

/-- A bus effect performed by `report_completion` / `report_error`
(lines 129-142): either a `task_status` broadcast or a publish on the
`worker_results` channel. -/
inductive WorkerBusEffect where
  | taskStatus (task_id status agent_id : String)
  | workerResult (worker_id : String) (result : WorkerResult)
  deriving DecidableEq, Repr

/-- The fields of `task_data` read by the worker, with the source's
`.get` defaults (lines 44-45, 108, 131). -/
structure WorkerTaskData where
  task_id : Option String := none
  subtask_id : String := "unknown"
  document_id : Option String := none
  retry_count : Option Int := none
  deriving DecidableEq, Repr

/-- `WorkerAgent.process_task` (lines 42-110), with the try-body's
outcome given as `body`: on success the result is returned and no
checkpoint is written; on an exception `e` a checkpoint
`{subtask_id, document_id, error, retry_count + 1}` is written and the
exception is re-raised (returned as `.error e`). -/
def worker_process_task (td : WorkerTaskData)
    (body : Except String WorkerResult) :
    Except String WorkerResult × List WorkerCheckpoint :=
  match body with
  | .ok result => (.ok result, [])
  | .error e =>
    (.error e,
     [{ subtask_id := td.subtask_id
        document_id := td.document_id
        error := e
        retry_count := td.retry_count.getD 0 + 1 }])

/-- `WorkerAgent.report_completion` (lines 129-135): broadcast
`worker_completed` when a task id is present, then publish the result on
`worker_results`. -/
def worker_report_completion (agent_id : String) (td : WorkerTaskData)
    (result : WorkerResult) : List WorkerBusEffect :=
  (match td.task_id with
   | some t => [.taskStatus t "worker_completed" agent_id]
   | none => []) ++ [.workerResult agent_id result]

/-- `WorkerAgent.report_error` (lines 137-142): broadcast `worker_error`
when a task id is present; nothing is published on `worker_results`. -/
def worker_report_error (agent_id : String) (td : WorkerTaskData) :
    List WorkerBusEffect :=
  match td.task_id with
  | some t => [.taskStatus t "worker_error" agent_id]
  | none => []

/-- `WorkerAgent.handle_subtask` (lines 30-40): run `process_task`; on
success report completion, on exception report the error.  Returns the
checkpoints written, the bus effects, and whether an exception escaped
the handler (the `try/except` makes this always `false`). -/
def worker_handle_subtask (is_running : Bool) (agent_id : String)
    (td : WorkerTaskData) (body : Except String WorkerResult) :
    List WorkerCheckpoint × List WorkerBusEffect × Bool :=
  if ¬is_running then ([], [], false)
  else
    match worker_process_task td body with
    | (.ok result, cps) => (cps, worker_report_completion agent_id td result, false)
    | (.error _, cps) => (cps, worker_report_error agent_id td, false)

/-! ## Worker fallback chunking (`worker_agent.py`, `chunk_document`)

`re.split(r'(?<=[.!?])\s+', content)` splits the text at each maximal
whitespace run preceded by `.`, `!` or `?`; the run is consumed. -/

/-- Python `\s` on the character sets this code meets (ASCII). -/
def pySpace (c : Char) : Bool :=
  c = ' ' ∨ c = '\t' ∨ c = '\n' ∨ c = '\x0d' ∨ c = '\x0c' ∨ c = '\x0b'

/-- A sentence-ending character of the lookbehind `[.!?]`. -/
def isSentenceEnd (c : Char) : Bool :=
  c = '.' ∨ c = '!' ∨ c = '?'

theorem dropWhile_length_le {α : Type} (p : α → Bool) (l : List α) :
    (l.dropWhile p).length ≤ l.length := by
  induction l with
  | nil => simp
  | cons a t ih =>
    rw [List.dropWhile_cons]
    by_cases h : p a = true
    · simp only [h, if_true]; exact Nat.le_succ_of_le ih
    · simp [h]

/-- The splitter of line 114 over character lists: `acc` holds the
current piece reversed; a whitespace character directly after a
sentence-ending character closes the piece and the whole whitespace run
is dropped. -/
def splitSentencesAux : List Char → List Char → List (List Char)
  | acc, [] => [acc.reverse]
  | acc, c :: rest =>
    if (match acc with | p :: _ => isSentenceEnd p | [] => false) && pySpace c then
      acc.reverse :: splitSentencesAux [] (rest.dropWhile pySpace)
    else splitSentencesAux (c :: acc) rest
termination_by _ rest => rest.length
decreasing_by
  · have := dropWhile_length_le pySpace rest
    simp; omega
  · simp

/-- `re.split(r'(?<=[.!?])\s+', content)` (line 114). -/
def splitSentences (content : String) : List String :=
  (splitSentencesAux [] content.data).map (fun cs => String.mk cs)

/-- The sentence-accumulation loop of `chunk_document` (lines 115-126):
greedily pack sentences into `buf` under the 8000-character budget,
flushing `buf.strip()` when it would overflow and once more at the end
when non-empty. -/
def chunkLoop : List String → List String → String → List String
  | [], chunks, buf => if buf.isEmpty then chunks else chunks ++ [buf.trim]
  | s :: rest, chunks, buf =>
    if buf.length + s.length < 8000 then chunkLoop rest chunks (buf ++ s ++ " ")
    else
      chunkLoop rest (if buf.isEmpty then chunks else chunks ++ [buf.trim]) (s ++ " ")

/-- `WorkerAgent.chunk_document` (lines 112-127): split into sentences,
pack them into chunks, and fall back to `[content]` when the loop
produced no chunks (`chunks or [content]`). -/
def chunk_document (content : String) : List String :=
  let sentences := splitSentences content
  let chunks := chunkLoop sentences [] ""
  if chunks.isEmpty then [content] else chunks

/-! ## Claims -/

/-- Claim C6 (confirmed): `publish` appends the timestamped copy of the
message to the channel's history (and the global history), invokes
exactly the handlers subscribed to that channel at publish time, once
each in subscription-registration order, each with the timestamped copy,
all before it returns (the invocation trace is part of `publish`'s
result); and `get_messages` is a pure read returning exactly the
channel's recorded messages with timestamp strictly greater than `s`
(excluding any with timestamp `≤ s`), in publish order. -/
theorem bus_publish_delivery_and_history {α η : Type}
    (st : BusState α η) (channel : String) (message : α) (now s : ℚ) :
    ((publish st channel message now).1.channels channel
        = st.channels channel ++ [{ payload := message, timestamp := now, channel := channel }])
    ∧ ((publish st channel message now).1.message_history
        = st.message_history ++ [{ payload := message, timestamp := now, channel := channel }])
    ∧ ((publish st channel message now).1.subscribers = st.subscribers)
    ∧ ((publish st channel message now).2
        = (st.subscribers channel).map
            (fun h => (h, { payload := message, timestamp := now, channel := channel })))
    ∧ ((publish st channel message now).2.map Prod.fst = st.subscribers channel)
    ∧ (∀ m : BusMessage α,
        m ∈ get_messages st channel s ↔ m ∈ st.channels channel ∧ s < m.timestamp)
    ∧ (get_messages st channel s).Sublist (st.channels channel) := by
  refine ⟨by simp [publish], by simp [publish], rfl, rfl, ?_, ?_, ?_⟩
  · show ((st.subscribers channel).map _).map Prod.fst = _
    rw [List.map_map]
    exact List.map_id _
  · intro m
    simp [get_messages, List.mem_filter]
  · exact List.filter_sublist _

/-- The validation loop only moves each result into exactly one of the
`successful` / `failed` counters (lines 29-37 of `residual_agent.py`). -/
theorem validate_foldl_counts (l : List TierResult) :
    ∀ acc : Nat × Nat × List Anomaly,
      (l.foldl validate_step acc).1 + (l.foldl validate_step acc).2.1
        = acc.1 + acc.2.1 + l.length := by
  induction l with
  | nil => intro acc; simp
  | cons r t ih =>
    intro acc
    rw [List.foldl_cons, ih]
    unfold validate_step
    by_cases h : validate_single_result r <;> simp [h] <;> omega

/-- Claim C9 (confirmed): for every list of tier results, the
`ValidationReport` has `total_results` equal to the input length,
`successful + failed = total_results`, and `quality_score` equal to
`successful / total_results` when `total_results > 0` and `0` when it is
`0` (exact rational arithmetic models Python's float division). -/
theorem validate_results_report_counts (vid : String) (now : ℚ)
    (l : List TierResult) :
    (validate_results vid now l).total_results = l.length
    ∧ (validate_results vid now l).successful + (validate_results vid now l).failed
        = (validate_results vid now l).total_results
    ∧ (validate_results vid now l).quality_score
        = (if 0 < (validate_results vid now l).total_results
           then ((validate_results vid now l).successful : ℚ)
                  / ((validate_results vid now l).total_results : ℚ)
           else 0) := by
  refine ⟨rfl, ?_, rfl⟩
  show (l.foldl validate_step (0, 0, [])).1 + (l.foldl validate_step (0, 0, [])).2.1
      = l.length
  simpa using validate_foldl_counts l (0, 0, [])

/-- Claim C10 (confirmed): for every input string, the worker's fallback
chunker returns a non-empty list (the `chunks or [content]` fallback
yields `[content]` whenever the accumulation loop produced no chunks),
so a document processed without precomputed chunks always reports
`chunks_processed ≥ 1`. -/
theorem chunk_document_nonempty (content : String) :
    1 ≤ (chunk_document content).length := by
  unfold chunk_document
  cases hc : chunkLoop (splitSentences content) [] "" with
  | nil => simp [hc]
  | cons a t => simp [hc]

/-- A structurally valid worker result, used as concrete data. -/
def exWR : WorkerResult :=
  { document_id := some "doc1", status := some "completed",
    chunks_processed := some 1, worker_id := some "w0",
    total_words := some 3, subtask_id := some "t_subtask_0_0" }

/-- A structurally valid sub-master result, used as concrete data. -/
def exTR : TierResult :=
  { task_id := some "t", sub_master_id := some "s0",
    total_documents := some 1, successful_documents := some 1,
    total_chunks_processed := some 1, total_words_processed := some 3,
    processing_time := some 1, worker_results := some [exWR] }

/-- A concrete master state with one active task `"t"` holding the empty
result list, a pool of two sub-masters. -/
def exMaster : MasterState :=
  { agent_id := "m", validator_id := "v", sub_masters := ["s0", "s1"],
    active_tasks := [("t", { total_docs := 1, sub_master_results := [],
                             start_time := 0, status := "processing" })],
    completed_tasks := [] }

/-- Claim C1 (confirmed): once `finalize_task` has run for an active task
`t` it removes `t` from `active_tasks` and records it in
`completed_tasks`, and afterwards `handle_submaster_result` on any
message carrying `t` — duplicate or late — returns the coordinator state
unchanged (so the stored completed result and all other state are
untouched and finalize cannot run again for `t`). -/
theorem finalize_runs_at_most_once (st : MasterState) (t : String)
    (info : TaskInfo) (now now2 : ℚ) (msg : SubmasterMsg)
    (h : alookup t st.active_tasks = some info) (hmsg : msg.task_id = some t) :
    alookup t (finalize_task now t st).active_tasks = none
    ∧ (alookup t (finalize_task now t st).completed_tasks).isSome
    ∧ handle_submaster_result now2 msg (finalize_task now t st)
        = finalize_task now t st := by
  have hactive : alookup t (finalize_task now t st).active_tasks = none := by
    unfold finalize_task
    rw [h]
    exact alookup_aerase t st.active_tasks
  refine ⟨hactive, ?_, ?_⟩
  · unfold finalize_task
    rw [h]
    simp [alookup_aupdate_self]
  · unfold handle_submaster_result
    simp only [hmsg, hactive]

/-- Witness for C1 at concrete inputs. -/
theorem finalize_runs_at_most_once_witness :
    alookup "t" (finalize_task 2 "t" exMaster).active_tasks = none
    ∧ (alookup "t" (finalize_task 2 "t" exMaster).completed_tasks).isSome
    ∧ handle_submaster_result 3
        { sub_master_id := some "s0", task_id := some "t", result := some exTR }
        (finalize_task 2 "t" exMaster)
        = finalize_task 2 "t" exMaster :=
  finalize_runs_at_most_once exMaster "t"
    { total_docs := 1, sub_master_results := [], start_time := 0,
      status := "processing" } 2 3
    { sub_master_id := some "s0", task_id := some "t", result := some exTR }
    (by simp [exMaster, alookup]) rfl

/-- Claim C5 (confirmed): the final report stored for a finalized task
has `total_documents_processed`, `successful_documents`,
`total_chunks_processed` and `total_words_processed` equal to the exact
sums of the corresponding fields over all received sub-master results,
`failed_documents` equal to total minus successful, and `success_rate`
equal to `successful / total` when `total > 0` and `0` when `total = 0`
(exact rational arithmetic models Python's float division). -/
theorem final_report_sums (st : MasterState) (t : String) (info : TaskInfo)
    (now : ℚ) (h : alookup t st.active_tasks = some info) :
    ∃ fr : FinalResult,
      alookup t (finalize_task now t st).completed_tasks = some fr
      ∧ fr.total_documents_processed
          = (info.sub_master_results.map (fun r => r.total_documents.getD 0)).sum
      ∧ fr.successful_documents
          = (info.sub_master_results.map (fun r => r.successful_documents.getD 0)).sum
      ∧ fr.total_chunks_processed
          = (info.sub_master_results.map (fun r => r.total_chunks_processed.getD 0)).sum
      ∧ fr.total_words_processed
          = (info.sub_master_results.map (fun r => r.total_words_processed.getD 0)).sum
      ∧ fr.failed_documents = fr.total_documents_processed - fr.successful_documents
      ∧ fr.success_rate
          = (if 0 < fr.total_documents_processed
             then (fr.successful_documents : ℚ) / (fr.total_documents_processed : ℚ)
             else 0) := by
  unfold finalize_task
  rw [h]
  exact ⟨_, alookup_aupdate_self _ _ _, rfl, rfl, rfl, rfl, rfl, rfl⟩

/-- Witness for C5 at concrete inputs. -/
theorem final_report_sums_witness :
    ∃ fr : FinalResult,
      alookup "t"
        (finalize_task 2 "t"
          { exMaster with
            active_tasks := [("t", { total_docs := 1, sub_master_results := [exTR],
                                     start_time := 0, status := "processing" })] }).completed_tasks
        = some fr
      ∧ fr.total_documents_processed
          = ([exTR].map (fun r => r.total_documents.getD 0)).sum
      ∧ fr.successful_documents
          = ([exTR].map (fun r => r.successful_documents.getD 0)).sum
      ∧ fr.total_chunks_processed
          = ([exTR].map (fun r => r.total_chunks_processed.getD 0)).sum
      ∧ fr.total_words_processed
          = ([exTR].map (fun r => r.total_words_processed.getD 0)).sum
      ∧ fr.failed_documents = fr.total_documents_processed - fr.successful_documents
      ∧ fr.success_rate
          = (if 0 < fr.total_documents_processed
             then (fr.successful_documents : ℚ) / (fr.total_documents_processed : ℚ)
             else 0) :=
  final_report_sums
    { exMaster with
      active_tasks := [("t", { total_docs := 1, sub_master_results := [exTR],
                               start_time := 0, status := "processing" })] }
    "t"
    { total_docs := 1, sub_master_results := [exTR], start_time := 0,
      status := "processing" }
    2 (by simp [exMaster, alookup])

/-- Claim C2 (counterexample): the original balance claim fails — 10
documents over 4 sub-coordinators yield dispatch groups of sizes
2, 2, 2, 4, whose sizes do not differ pairwise by at most 1. -/
theorem split_documents_balance_counterexample :
    ((split_documents 4 [0, 1, 2, 3, 4, 5, 6, 7, 8, 9]).map List.length
        = [2, 2, 2, 4])
    ∧ ¬ ((split_documents 4 [0, 1, 2, 3, 4, 5, 6, 7, 8, 9]).map List.length).Pairwise
          (fun a b => a ≤ b + 1 ∧ b ≤ a + 1) := by
  have h : (split_documents 4 [0, 1, 2, 3, 4, 5, 6, 7, 8, 9]).map List.length
      = [2, 2, 2, 4] := by
    simp [split_documents, sliceChunks, mergeExtra, mergeLastTwo]
  exact ⟨h, by rw [h]; decide⟩

/-- Claim C2 (corrected): for every batch of N documents and every pool
of M ≥ 1 sub-coordinators, the dispatch group sizes sum to N, and
splitting 5 documents over 2 sub-coordinators yields groups of sizes 2
and 3 (in dispatch order); the pairwise size difference is NOT bounded
by 1 in general (see the counterexample). -/
theorem split_documents_sizes_sum {α : Type} (M : Nat) (documents : List α)
    (hM : 1 ≤ M) :
    (((split_documents M documents).map List.length).sum = documents.length)
    ∧ ((split_documents 2 [0, 1, 2, 3, 4]).map List.length = [2, 3]) := by
  refine ⟨?_, by simp [split_documents, sliceChunks, mergeExtra, mergeLastTwo]⟩
  rw [← List.length_flatten, split_documents_join]

/-- Witness for C2's amended theorem at concrete inputs. -/
theorem split_documents_sizes_sum_witness :
    (((split_documents 2 [0, 1, 2, 3, 4]).map List.length).sum = 5)
    ∧ ((split_documents 2 [0, 1, 2, 3, 4]).map List.length = [2, 3]) := by
  have h := split_documents_sizes_sum 2 [0, 1, 2, 3, 4] (by decide)
  exact ⟨by simpa using h.1, h.2⟩

/-- Every slice produced by the slicing loop is non-empty. -/
theorem sliceChunks_ne_nil {α : Type} (size : Nat) (hs : 0 < size)
    (xs : List α) : ∀ c ∈ sliceChunks size hs xs, c ≠ [] := by
  induction xs using sliceChunks.induct size hs with
  | case1 xs h => rw [sliceChunks, dif_pos h]; intro c hc; simp at hc
  | case2 xs h ih =>
    rw [sliceChunks, dif_neg h]
    intro c hc
    rcases List.mem_cons.mp hc with hc1 | hc2
    · subst hc1
      simp only [ne_eq, List.take_eq_nil_iff]
      push_neg
      exact ⟨by omega, by simpa using h⟩
    · exact ih c hc2

theorem mergeLastTwo_ne_nil {α : Type} (cs : List (List α))
    (hcs : ∀ c ∈ cs, c ≠ []) : ∀ c ∈ mergeLastTwo cs, c ≠ [] := by
  unfold mergeLastTwo
  match hrev : cs.reverse with
  | [] => intro c hc; exact hcs c hc
  | [a] => intro c hc; exact hcs c hc
  | last :: prev :: rest =>
    intro c hc
    rw [List.mem_reverse, List.mem_cons] at hc
    have hmem : ∀ x, x ∈ last :: prev :: rest → x ∈ cs := by
      intro x hx
      have hx' : x ∈ cs.reverse := by rw [hrev]; exact hx
      exact List.mem_reverse.mp hx'
    rcases hc with hc1 | hc2
    · subst hc1
      have : prev ≠ [] := hcs prev (hmem prev (by simp))
      simp only [ne_eq, List.append_eq_nil]
      tauto
    · exact hcs c (hmem c (by simp [hc2]))

theorem mergeExtra_ne_nil {α : Type} (M : Nat) (chunks : List (List α)) :
    (∀ c ∈ chunks, c ≠ []) → ∀ c ∈ mergeExtra M chunks, c ≠ [] := by
  induction chunks using mergeExtra.induct M with
  | case1 cs h ih =>
    intro hcs
    rw [mergeExtra, dif_pos h]
    exact ih (mergeLastTwo_ne_nil cs hcs)
  | case2 cs h =>
    intro hcs
    rw [mergeExtra, dif_neg h]
    exact hcs

/-- Every dispatch group produced by `split_documents` is non-empty. -/
theorem split_documents_ne_nil {α : Type} (M : Nat) (documents : List α) :
    ∀ c ∈ split_documents M documents, c ≠ [] := by
  unfold split_documents
  by_cases h : documents.isEmpty
  · rw [if_pos h]; intro c hc; simp at hc
  · rw [if_neg h]
    exact mergeExtra_ne_nil M _ (sliceChunks_ne_nil _ _ documents)

/-- When a list has at most `M` elements, the index filter `i < M` of the
assignment loop keeps every enumerated element. -/
theorem enum_filter_lt_all {α : Type} (l : List α) (M : Nat)
    (h : l.length ≤ M) : l.enum.filter (fun p => p.1 < M) = l.enum := by
  rw [List.filter_eq_self]
  intro p hp
  have h1 : l[p.1]? = some p.2 := List.mem_enum_iff_getElem?.mp hp
  have h2 : p.1 < l.length := by
    by_contra hc
    rw [List.getElem?_eq_none (le_of_not_lt hc)] at h1
    exact absurd h1 (by simp)
  simpa using lt_of_lt_of_le h2 h

/-- The tracking entry registered by `process_document_batch` at line 61
of `master_agent.py`, for a batch of `n` documents starting at `now`. -/
def freshTaskInfo (n : Nat) (now : ℚ) : TaskInfo :=
  { total_docs := n, sub_master_results := [], start_time := now,
    status := "processing" }

/-- Claim C4 (counterexample): a batch of one document submitted to a
coordinator with a pool of two sub-masters produces exactly one (non-empty)
dispatch group, yet after that group's TierResult arrives the fan-in
handler does not finalize — the task stays active with the received
result and nothing is recorded in `completed_tasks`, because the handler
compares the received count against the pool size, not against the
number of groups (no `expected_subresults` is recorded anywhere). -/
theorem master_fanin_pool_size_counterexample :
    (split_documents 2 [0]).length = 1
    ∧ (handle_submaster_result 1
         { sub_master_id := some "s0", task_id := some "t", result := some exTR }
         exMaster).active_tasks
        = [("t", { total_docs := 1, sub_master_results := [exTR],
                   start_time := 0, status := "processing" })]
    ∧ (handle_submaster_result 1
         { sub_master_id := some "s0", task_id := some "t", result := some exTR }
         exMaster).completed_tasks = [] := by
  refine ⟨by simp [split_documents, sliceChunks, mergeExtra, mergeLastTwo], ?_, ?_⟩
  · unfold handle_submaster_result
    simp [exMaster, alookup, aupdate]
  · unfold handle_submaster_result
    simp [exMaster, alookup, aupdate]

/-- Claim C4 (corrected): the coordinator publishes one assignment per
dispatch group (and every group is non-empty), but it records no
`expected_subresults`: its fan-in handler invokes finalize exactly when
the count of received TierResults reaches the sub-master pool size
`len(self.sub_masters)`.  A batch that produces fewer groups than the
pool size is therefore never finalized by the fan-in handler (see the
counterexample). -/
theorem master_dispatch_and_pool_fanin {δ : Type} (now now2 : ℚ)
    (nowSec : Nat) (documents : List δ) (st st2 : MasterState) (t : String)
    (info : TaskInfo) (msg : SubmasterMsg)
    (hM : 1 ≤ st.sub_masters.length)
    (h2 : alookup t st2.active_tasks = some info) (hmsg : msg.task_id = some t) :
    ((process_document_batch now nowSec documents st).2.2.length
        = (split_documents st.sub_masters.length documents).length)
    ∧ (∀ c ∈ split_documents st.sub_masters.length documents, c ≠ [])
    ∧ (st2.sub_masters.length ≤ info.sub_master_results.length + 1 →
          alookup t (handle_submaster_result now2 msg st2).active_tasks = none
          ∧ (alookup t (handle_submaster_result now2 msg st2).completed_tasks).isSome)
    ∧ (info.sub_master_results.length + 1 < st2.sub_masters.length →
          alookup t (handle_submaster_result now2 msg st2).active_tasks
            = some { info with
                     sub_master_results :=
                       info.sub_master_results
                         ++ [msg.result.getD TierResult.empty] }) := by
  refine ⟨?_, split_documents_ne_nil _ _, ?_, ?_⟩
  · unfold process_document_batch
    simp only
    rw [List.length_map,
        enum_filter_lt_all _ _ (split_documents_length_le _ hM documents),
        List.enum_length]
  · intro hle
    unfold handle_submaster_result
    simp only [hmsg, h2]
    rw [if_pos (by simpa using hle)]
    unfold finalize_task
    rw [alookup_aupdate_self]
    constructor
    · exact alookup_aerase t _
    · simp [alookup_aupdate_self]
  · intro hlt
    unfold handle_submaster_result
    simp only [hmsg, h2]
    rw [if_neg (by simp only [List.length_append, List.length_cons,
          List.length_nil]; omega)]
    exact alookup_aupdate_self _ _ _

/-- Witness for C4's corrected theorem at concrete inputs (pool of two,
one prior result received, so the threshold is met and finalize fires). -/
theorem master_dispatch_and_pool_fanin_witness :
    ((process_document_batch 0 100 ([0] : List Nat) exMaster).2.2.length
        = (split_documents 2 ([0] : List Nat)).length)
    ∧ (alookup "t"
         (handle_submaster_result 1
           { sub_master_id := some "s0", task_id := some "t", result := some exTR }
           { exMaster with
             active_tasks := [("t", { total_docs := 1, sub_master_results := [exTR],
                                      start_time := 0, status := "processing" })] }).active_tasks
        = none) := by
  have h := master_dispatch_and_pool_fanin (δ := Nat) 0 1 100 [0] exMaster
    { exMaster with
      active_tasks := [("t", { total_docs := 1, sub_master_results := [exTR],
                               start_time := 0, status := "processing" })] }
    "t"
    { total_docs := 1, sub_master_results := [exTR], start_time := 0,
      status := "processing" }
    { sub_master_id := some "s0", task_id := some "t", result := some exTR }
    (by simp [exMaster]) (by simp [exMaster, alookup]) rfl
  exact ⟨h.1, (h.2.2.1 (by simp [exMaster])).1⟩

/-- `get_failure_reason` only ever produces one of four strings. -/
theorem get_failure_reason_mem (r : TierResult) :
    get_failure_reason r ∈ ["Missing task ID", "No successful documents processed",
      "No worker results", "Unknown validation failure"] := by
  unfold get_failure_reason
  split_ifs <;> simp

/-- Every anomaly appended by the validation loop carries a
`get_failure_reason` string. -/
theorem validate_fold_anomaly_reasons (l : List TierResult) :
    ∀ acc : Nat × Nat × List Anomaly,
      (∀ a ∈ acc.2.2, a.reason ∈ ["Missing task ID",
        "No successful documents processed", "No worker results",
        "Unknown validation failure"]) →
      ∀ a ∈ (l.foldl validate_step acc).2.2,
        a.reason ∈ ["Missing task ID", "No successful documents processed",
          "No worker results", "Unknown validation failure"] := by
  induction l with
  | nil => intro acc hacc; simpa using hacc
  | cons r t ih =>
    intro acc hacc
    rw [List.foldl_cons]
    apply ih
    unfold validate_step
    by_cases h : validate_single_result r
    · simpa [h] using hacc
    · simp only [h, if_neg, Bool.false_eq_true, if_false]
      intro a ha
      rcases List.mem_append.mp ha with ha1 | ha2
      · exact hacc a ha1
      · have : a = ⟨r.task_id.getD "unknown", get_failure_reason r⟩ := by
          simpa using ha2
        rw [this]
        exact get_failure_reason_mem r

/-- A sub-master result with a task id, a positive successful count, and
no `worker_results` key — concrete data for the validator claims. -/
def exNoWR : TierResult :=
  { task_id := some "t", sub_master_id := some "s0",
    total_documents := some 1, successful_documents := some 1,
    processing_time := some 1, worker_results := none }

/-- Claim C7 (counterexample): the reason recorded for a TierResult
lacking a `worker_results` list is the string `"No worker results"`,
which is not one of the four snake_case reason codes the claim lists
(`"missing_task_id"`, `"no_successful_documents"`, `"no_worker_results"`,
`"unknown_validation_failure"`); the anomaly actually recorded by
`validate_results` carries that string. -/
theorem validator_reason_codes_counterexample :
    get_failure_reason exNoWR = "No worker results"
    ∧ "No worker results" ∉ (["missing_task_id", "no_successful_documents",
        "no_worker_results", "unknown_validation_failure"] : List String)
    ∧ (validate_results "v" 0 [exNoWR]).anomalies
        = [{ result_id := "t", reason := "No worker results" }] := by
  have hv : validate_single_result exNoWR = false := by
    unfold validate_single_result
    norm_num [exNoWR, wrFalsy]
  have hr : get_failure_reason exNoWR = "No worker results" := by decide
  have htid : exNoWR.task_id = some "t" := rfl
  refine ⟨hr, by decide, ?_⟩
  simp [validate_results, validate_step, hv, hr, htid]

/-- Claim C7 (corrected): every anomaly recorded by the validator has a
reason that is one of exactly the four strings `"Missing task ID"`,
`"No successful documents processed"`, `"No worker results"`,
`"Unknown validation failure"` (not the snake_case codes of the original
claim); a TierResult with a task id and non-zero successful count but no
(or an empty) `worker_results` list gets reason `"No worker results"`,
and one with `successful_documents == 0` (task id present) gets
`"No successful documents processed"`. -/
theorem validator_reason_strings (vid : String) (now : ℚ)
    (l : List TierResult) (r : TierResult) :
    (∀ a ∈ (validate_results vid now l).anomalies,
        a.reason ∈ ["Missing task ID", "No successful documents processed",
          "No worker results", "Unknown validation failure"])
    ∧ (r.task_id.isSome → r.successful_documents.getD 0 ≠ 0 →
        wrFalsy r.worker_results = true →
        get_failure_reason r = "No worker results")
    ∧ (r.task_id.isSome → r.successful_documents.getD 0 = 0 →
        get_failure_reason r = "No successful documents processed") := by
  refine ⟨?_, ?_, ?_⟩
  · intro a ha
    exact validate_fold_anomaly_reasons l (0, 0, []) (by simp) a ha
  · intro h1 h2 h3
    have hnone : r.task_id.isNone = false := by
      rcases htid : r.task_id with _ | v
      · rw [htid] at h1; simp at h1
      · rfl
    unfold get_failure_reason
    simp [hnone, h2, h3]
  · intro h1 h2
    have hnone : r.task_id.isNone = false := by
      rcases htid : r.task_id with _ | v
      · rw [htid] at h1; simp at h1
      · rfl
    unfold get_failure_reason
    simp [hnone, h2]

/-- Witness for C7's corrected theorem at concrete inputs. -/
theorem validator_reason_strings_witness :
    get_failure_reason exNoWR = "No worker results"
    ∧ get_failure_reason { task_id := some "t" } =
        "No successful documents processed" :=
  ⟨(validator_reason_strings "v" 0 [] exNoWR).2.1 (by decide) (by decide)
      (by decide),
   (validator_reason_strings "v" 0 [] { task_id := some "t" }).2.2 (by decide)
      (by decide)⟩

/-- A pending sub-master tracking entry with one received worker result,
concrete data for the conflicting-dispatch claim. -/
def exSubPending : SubTaskInfo Nat :=
  { documents := [7], total_docs := 1, completed_docs := 1,
    worker_results := [exWR], start_time := 0 }

/-- A sub-master currently processing task `"t"` (its tracking entry is
`exSubPending`), with a pool of three workers. -/
def exSubMaster : SubMasterState Nat :=
  { agent_id := "sm", workers := ["w0", "w1", "w2"],
    active_tasks := [(some "t", exSubPending)], task_results := [] }

/-- Claim C8 (counterexample): dispatching task `"t"` again while `"t"`
is still pending is not rejected — `process_task` returns normally (it
has no error path for a conflicting task id) and the pending entry's
tracking state is replaced by a fresh one (new documents, zero completed
docs, empty worker results), so the pending state is NOT left
unchanged. -/
theorem submaster_conflicting_dispatch_counterexample :
    (submaster_track_and_dispatch 5
        { task_id := some "t", document_chunk := [9], chunk_id := 1 }
        exSubMaster).1.active_tasks
      = [(some "t", { documents := [9], total_docs := 1, completed_docs := 0,
                      worker_results := [], start_time := 5 })]
    ∧ ({ documents := [9], total_docs := 1, completed_docs := 0,
         worker_results := [], start_time := 5 } : SubTaskInfo Nat)
        ≠ exSubPending := by
  constructor
  · unfold submaster_track_and_dispatch
    simp [exSubMaster, aupdate]
  · decide

/-- Claim C8 (corrected): a dispatch for a task id that is already
pending is NOT rejected as a conflicting-task error; the sub-coordinator
unconditionally overwrites `active_tasks[task_id]` with fresh tracking
state (the new chunk, `completed_docs = 0`, no worker results) and sends
one worker assignment per document of the new chunk. -/
theorem submaster_dispatch_overwrites_tracking {δ : Type} (now : ℚ)
    (td : SubTaskData δ) (st : SubMasterState δ) :
    alookup td.task_id
        (submaster_track_and_dispatch now td st).1.active_tasks
      = some { documents := td.document_chunk,
               total_docs := td.document_chunk.length,
               completed_docs := 0, worker_results := [], start_time := now }
    ∧ (submaster_track_and_dispatch now td st).2.length
        = td.document_chunk.length := by
  constructor
  · exact alookup_aupdate_self _ _ _
  · unfold submaster_track_and_dispatch
    simp [List.enum_length]

/-- Claim C3 (counterexample): when processing of subtask `"st1"` fails
with `"boom"`, the worker writes the checkpoint
`{subtask_id, document_id, error, retry_count+1}` but does NOT return a
UnitResult with status=Failed to the dispatching tier: the only bus
effect is a `worker_error` task-status broadcast, and nothing at all is
published on the `worker_results` channel that the sub-master consumes. -/
theorem worker_failure_no_result_counterexample :
    worker_handle_subtask true "w1"
        { task_id := some "t", subtask_id := "st1",
          document_id := some "d1", retry_count := none }
        (.error "boom")
      = ([{ subtask_id := "st1", document_id := some "d1", error := "boom",
            retry_count := 1 }],
         [WorkerBusEffect.taskStatus "t" "worker_error" "w1"], false)
    ∧ ([WorkerBusEffect.taskStatus "t" "worker_error" "w1"].all
         (fun eff => match eff with
           | .workerResult _ _ => false
           | _ => true)) = true := by
  exact ⟨rfl, rfl⟩

/-- Claim C3 (corrected): on any processing failure the worker writes
exactly one checkpoint `{subtask_id, document_id, error, retry_count+1}`;
`process_task` re-raises the exception, `handle_subtask` catches it, and
the failure is reported only as a `worker_error` task-status broadcast —
no UnitResult (failed or otherwise) is published to the dispatching
tier's `worker_results` channel, and no exception escapes the
handler. -/
theorem worker_failure_checkpoint_and_error_broadcast (tid : Option String)
    (stid : String) (did : Option String) (rc : Option Int) (wid e : String) :
    worker_handle_subtask true wid
        { task_id := tid, subtask_id := stid, document_id := did,
          retry_count := rc }
        (.error e)
      = ([{ subtask_id := stid, document_id := did, error := e,
            retry_count := rc.getD 0 + 1 }],
         (match tid with
          | some t => [WorkerBusEffect.taskStatus t "worker_error" wid]
          | none => []), false)
    ∧ ((match tid with
        | some t => [WorkerBusEffect.taskStatus t "worker_error" wid]
        | none => []).all
         (fun eff => match eff with
           | .workerResult _ _ => false
           | _ => true)) = true := by
  cases tid <;> exact ⟨rfl, rfl⟩
